import Mathlib

/-!
Verification of the delivery and replay engine of the apns client
(src/client.go). The mutable client, its bounded replay queue, the
write-with-retry path, the error handler and the single-shot frame reader
are embedded as pure functions over an explicit state; network outcomes
(dials, handshakes, deadlines, socket writes, frame reads) are passed in as
explicit oracle values so that each code path of the source is a branch of
the corresponding Lean function.
-/

namespace Apns

/-- Modelled from the spec: a Notification (PushNotification, defined outside
src/) is an opaque payload plus a mutable sequence field `Identifier`
assigned by the orchestrator at send time. The payload is abstracted as a
tag distinguishing notifications. -/
structure PushNotification where
  Identifier : Nat
  payload : Nat
deriving DecidableEq, Repr

/-- Modelled from the spec: a FailureReport (errResponse, defined outside
src/) is a command byte, a status byte and a big-endian sequence number
parsed from the fixed 6-byte frame; field names follow the uses in
startRead (src/client.go lines 282-287). -/
structure errResponse where
  Command : Nat
  Status : Nat
  Identifier : Nat
deriving DecidableEq, Repr

/-- SendErr pairs a notification with the gateway report; Res is nil (none)
when the failure is a local write error (src/client.go lines 22-25). -/
structure SendErr where
  Pn : PushNotification
  Res : Option errResponse
deriving DecidableEq, Repr

/-- Default replay-queue capacity (src/client.go line 17). -/
def MAX_SEND_Q : Nat := 10000

/-- Modelled from the spec: the Replay Queue (pnQueue, defined outside src/)
is a bounded, strictly insertion-ordered sequence of notifications with
fixed capacity. -/
structure pnQueue where
  cap : Nat
  items : List PushNotification
deriving DecidableEq, Repr

/-- Modelled from the spec: a fresh empty queue of the given capacity. -/
def newPnQueue (c : Nat) : pnQueue := ⟨c, []⟩

/-- Modelled from the spec: append evicts the oldest entry first when the
queue is at capacity, then inserts at the newest end; never fails. -/
def pnQueue.Append (q : pnQueue) (pn : PushNotification) : pnQueue :=
  ⟨q.cap, (if q.cap ≤ q.items.length then q.items.tail else q.items) ++ [pn]⟩

/-- Modelled from the spec: clear drops all entries. -/
def pnQueue.Clear (q : pnQueue) : pnQueue := ⟨q.cap, []⟩

/-- Scan from oldest to newest for the first entry carrying the given
sequence number, returning it together with the entries inserted after
it, in their original order. -/
def splitAtId : List PushNotification → Nat → Option (PushNotification × List PushNotification)
  | [], _ => none
  | p :: rest, id =>
    if p.Identifier = id then some (p, rest) else splitAtId rest id

/-- Modelled from the spec: drainFrom (named Tail at the call site,
src/client.go line 99) removes and returns the matching entry plus every
entry inserted after it, in original order, clearing the structure; when no
entry matches it returns none and leaves the queue unchanged. -/
def pnQueue.Tail (q : pnQueue) (id : Nat) :
    Option PushNotification × List PushNotification × pnQueue :=
  match splitAtId q.items id with
  | some (p, tl) => (some p, tl, ⟨q.cap, []⟩)
  | none => (none, [], q)

/-- The mutable fields of Client that the verified operations touch
(src/client.go lines 37-50). A live tls connection is abstracted as an
identity tag, so the pointer comparison in tryReset becomes equality of
tags; errChanClosed records whether close(client.errChan) has run. -/
structure ClientState where
  apnsConnection : Option Nat
  errChanClosed : Bool
  sentQ : pnQueue
  counter : Nat
  running : Bool
deriving DecidableEq, Repr

/-- The state set up by create (src/client.go lines 70-84). -/
def createState : ClientState :=
  { apnsConnection := none, errChanClosed := false,
    sentQ := newPnQueue MAX_SEND_Q, counter := 0, running := true }

/-- The error values the embedded operations can return; openErr covers both
certificate loading and dial/handshake failures inside openConnection. -/
inductive GoErr where
  | notRunning
  | serializeErr
  | openErr
  | deadlineErr
  | writeErr
deriving DecidableEq, Repr

/-- Outcome of one openConnection attempt: a fresh connection tag, or any of
its failure exits (certificate, dial, handshake). -/
inductive ConnResult where
  | ok (conn : Nat)
  | fail
deriving DecidableEq, Repr

/-- Oracle for the network operations a single connectAndWrite call may
perform: the lazy open when no connection is cached, the two deadline sets,
the two socket writes, and the reconnect after a first write failure. -/
structure WriteEnv where
  open1 : ConnResult
  deadline1Ok : Bool
  write1Ok : Bool
  open2 : ConnResult
  deadline2Ok : Bool
  write2Ok : Bool
deriving DecidableEq, Repr

/-- Result of connectAndWrite: the connection cached afterwards, the
returned error, and how many socket writes and openConnection attempts were
performed. -/
structure CWResult where
  conn : Option Nat
  err : Option GoErr
  writes : Nat
  opens : Nat
deriving DecidableEq, Repr

/-- The deadline/write/retry body of connectAndWrite once a connection c is
cached (src/client.go lines 187-210); opens0 counts an openConnection
already performed on entry. When the first write fails the code reconnects
and writes again; a failing retry returns the retry's error (line 207), and
a succeeding retry falls through to line 210, which returns the err bound
at line 190 — the first write's non-nil error. -/
def writeWithConn (c : Nat) (opens0 : Nat) (env : WriteEnv) : CWResult :=
  if env.deadline1Ok = false then ⟨some c, some GoErr.deadlineErr, 0, opens0⟩
  else if env.write1Ok = true then ⟨some c, none, 1, opens0⟩
  else
    match env.open2 with
    | ConnResult.fail => ⟨some c, some GoErr.openErr, 1, opens0 + 1⟩
    | ConnResult.ok c2 =>
      if env.deadline2Ok = false then ⟨some c2, some GoErr.deadlineErr, 1, opens0 + 1⟩
      else if env.write2Ok = false then ⟨some c2, some GoErr.writeErr, 2, opens0 + 1⟩
      else ⟨some c2, some GoErr.writeErr, 2, opens0 + 1⟩

/-- connectAndWrite (src/client.go lines 180-211): opens a connection
lazily when none is cached, then performs the write with its single
reconnect-and-retry. -/
def connectAndWrite (conn0 : Option Nat) (env : WriteEnv) : CWResult :=
  match conn0 with
  | none =>
    match env.open1 with
    | ConnResult.fail => ⟨none, some GoErr.openErr, 0, 1⟩
    | ConnResult.ok c => writeWithConn c 1 env
  | some c => writeWithConn c 0 env

/-- Everything observable about one Send call: the state afterwards, the
returned error, the SendErr values emitted asynchronously on the external
ErrChannel, the socket writes and openConnection attempts performed, and
the caller's notification object after the call (its Identifier is mutated
in place by an accepted send). -/
structure SendResult where
  state : ClientState
  err : Option GoErr
  emitted : List SendErr
  writes : Nat
  opens : Nat
  pnOut : PushNotification
deriving DecidableEq, Repr

/-- Send (src/client.go lines 126-153). U stands for IdentifierUbound,
which is defined outside src/ (modelled from the spec as the positive wrap
bound of the int32 sequence counter); serializeOk is the outcome of
pn.ToBytes, also defined outside src/. An accepted send assigns the counter
to the notification and advances it modulo U, serializes, then calls
connectAndWrite; on success it appends the notification to sentQ, on error
it nils the cached connection and emits one SendErr with Res nil. -/
def Send (U : Nat) (s : ClientState) (pn : PushNotification)
    (serializeOk : Bool) (env : WriteEnv) : SendResult :=
  if s.running = false then
    ⟨s, some GoErr.notRunning, [], 0, 0, pn⟩
  else
    let pn1 : PushNotification := { pn with Identifier := s.counter }
    let s1 : ClientState := { s with counter := (s.counter + 1) % U }
    if serializeOk = false then
      ⟨s1, some GoErr.serializeErr, [], 0, 0, pn1⟩
    else
      let r := connectAndWrite s1.apnsConnection env
      match r.err with
      | none =>
        ⟨{ s1 with apnsConnection := r.conn, sentQ := s1.sentQ.Append pn1 },
          none, [], r.writes, r.opens, pn1⟩
      | some e =>
        ⟨{ s1 with apnsConnection := none }, some e, [⟨pn1, none⟩],
          r.writes, r.opens, pn1⟩

/-- handleErrResponse (src/client.go lines 86-122): under the lock, a
running client with a real report (Command not 0) looks the failing
sequence number up in sentQ; on a miss it only logs a capacity warning; on
a match it emits one SendErr pairing the matched notification with the
report, clears the queue, and hands the drained tail to the resend task.
Returns the new state, the emitted SendErr values, and the notifications
to resend in order. -/
def handleErrResponse (s : ClientState) (res : errResponse) :
    ClientState × List SendErr × List PushNotification :=
  if s.running = false then (s, [], [])
  else if res.Command = 0 then (s, [], [])
  else
    match s.sentQ.Tail res.Identifier with
    | (none, _, _) => (s, [], [])
    | (some errPn, reSend, q1) =>
      ({ s with sentQ := q1.Clear }, [⟨errPn, some res⟩], reSend)

/-- The resend task spawned by handleErrResponse (src/client.go lines
114-120): issues Send for each drained notification in order; a failing
resend is logged and the loop continues with the rest. outcome i supplies
the serialization and network outcomes of the i-th resend. -/
def resendLoop (U : Nat) (outcome : Nat → Bool × WriteEnv) :
    ClientState → List PushNotification → Nat →
    ClientState × List (PushNotification × Option GoErr)
  | s, [], _ => (s, [])
  | s, pn :: rest, i =>
    let r := Send U s pn (outcome i).1 (outcome i).2
    let next := resendLoop U outcome r.state rest (i + 1)
    (next.1, (pn, r.err) :: next.2)

/-- tryReset (src/client.go lines 248-259): on a running client,
compare-and-clear the cached connection by identity. -/
def tryReset (s : ClientState) (conn : Nat) : ClientState :=
  if s.running = false then s
  else if s.apnsConnection = some conn then { s with apnsConnection := none }
  else s

/-- saveErr (src/client.go lines 261-271): forwards a parsed report to the
internal errChan only while running; the second component is the value sent
on errChan, none when nothing was sent. -/
def saveErr (s : ClientState) (r : errResponse) : ClientState × Option errResponse :=
  if s.running = false then (s, none) else (s, some r)

/-- Result of Close: the state afterwards, whether close(errChan) ran
during this call, and the connection whose Close was spawned, if any. -/
structure CloseResult where
  state : ClientState
  closedChan : Bool
  closedConn : Option Nat
deriving DecidableEq, Repr

/-- Close (src/client.go lines 327-344): a second Close returns at the
running check; otherwise it stops the client, closes errChan, and closes
and clears the cached connection when one is present. -/
def Close (s : ClientState) : CloseResult :=
  if s.running = false then ⟨s, false, none⟩
  else
    match s.apnsConnection with
    | none => ⟨{ s with running := false, errChanClosed := true }, true, none⟩
    | some c =>
      ⟨{ s with running := false, errChanClosed := true, apnsConnection := none },
        true, some c⟩

/-- Modelled from the spec: the fixed frame length ERR_RESPONSE_LEN (1
command byte, 1 status byte, 4 sequence bytes), defined outside src/. -/
def ERR_RESPONSE_LEN : Nat := 6

/-- Outcome of the single frame read of startRead: the read fails, or a
frame arrives with command byte b0, status byte b1, and the result of
decoding the 4-byte identifier. -/
inductive ReadOutcome where
  | readErr
  | frame (b0 b1 : Nat) (idOk : Bool) (id : Nat)
deriving DecidableEq, Repr

/-- Whether the read itself failed. -/
def ReadOutcome.isReadErr : ReadOutcome → Bool
  | ReadOutcome.readErr => true
  | ReadOutcome.frame _ _ _ _ => false

/-- What a startRead execution did on its exit path: whether conn.Close was
invoked, whether tryReset was requested, and the report handed to saveErr,
if any. -/
structure ReadExit where
  connClosed : Bool
  invalidated : Bool
  reported : Option errResponse
deriving DecidableEq, Repr

/-- startRead (src/client.go lines 272-306) as a function of the outcome of
its single frame read. cmdSentinel stands for ERR_RESPONSE_CMD and known
for membership in the ApplePushResponses table, both defined outside src/.
On a read error it closes the connection and requests invalidation; on an
identifier decode error, an unknown command or an unknown status it merely
returns; on a valid frame it hands the report to saveErr. -/
def startRead (cmdSentinel : Nat) (known : Nat → Bool) (oc : ReadOutcome) : ReadExit :=
  match oc with
  | ReadOutcome.readErr => ⟨true, true, none⟩
  | ReadOutcome.frame b0 b1 idOk id =>
    if idOk = false then ⟨false, false, none⟩
    else if b0 ≠ cmdSentinel then ⟨false, false, none⟩
    else if known b1 = false then ⟨false, false, none⟩
    else ⟨false, false, some ⟨b0, b1, id⟩⟩

/-- The serialized operations that can run under the client's lock. -/
inductive Op where
  | sendOp (pn : PushNotification) (serializeOk : Bool) (env : WriteEnv)
  | closeOp
  | saveErrOp (r : errResponse)
  | handleErrOp (r : errResponse)
  | tryResetOp (c : Nat)
deriving DecidableEq, Repr

/-- Whether an operation is a Close call. -/
def Op.isClose : Op → Bool
  | Op.closeOp => true
  | _ => false

/-- One operation applied to the client state; the two Booleans record
whether errChan was closed and whether a value was sent on errChan during
the step. -/
def step (U : Nat) (s : ClientState) : Op → ClientState × Bool × Bool
  | Op.sendOp pn sOk env => ((Send U s pn sOk env).state, false, false)
  | Op.closeOp => ((Close s).state, (Close s).closedChan, false)
  | Op.saveErrOp r => ((saveErr s r).1, false, (saveErr s r).2.isSome)
  | Op.handleErrOp r => ((handleErrResponse s r).1, false, false)
  | Op.tryResetOp c => (tryReset s c, false, false)

/-- The client state after a sequence of operations. -/
def runState (U : Nat) : ClientState → List Op → ClientState
  | s, [] => s
  | s, op :: rest => runState U (step U s op).1 rest

/-- How many times errChan is closed along a run. -/
def closeEvents (U : Nat) : ClientState → List Op → Nat
  | _, [] => 0
  | s, op :: rest =>
    (if (step U s op).2.1 = true then 1 else 0) + closeEvents U (step U s op).1 rest

/-- The write/retry body performs at most two socket writes. -/
lemma writeWithConn_writes_le (c o : Nat) (env : WriteEnv) :
    (writeWithConn c o env).writes ≤ 2 := by
  unfold writeWithConn
  rcases env with ⟨o1, d1, w1, o2, d2, w2⟩
  cases d1 <;> cases w1 <;> cases o2 <;> cases d2 <;> cases w2 <;> simp

/-- connectAndWrite performs at most two socket writes. -/
lemma connectAndWrite_writes_le (conn0 : Option Nat) (env : WriteEnv) :
    (connectAndWrite conn0 env).writes ≤ 2 := by
  unfold connectAndWrite
  cases conn0 with
  | none =>
    cases h : env.open1 with
    | ok c => exact writeWithConn_writes_le c 1 env
    | fail => simp
  | some c => exact writeWithConn_writes_le c 0 env

/-- Send performs at most two socket writes. -/
lemma Send_writes_le (U : Nat) (s : ClientState) (pn : PushNotification)
    (serializeOk : Bool) (env : WriteEnv) :
    (Send U s pn serializeOk env).writes ≤ 2 := by
  have hcw := connectAndWrite_writes_le s.apnsConnection env
  rcases hc : connectAndWrite s.apnsConnection env with ⟨cn, er, wr, op⟩
  rw [hc] at hcw
  cases hrun : s.running <;> cases hser : serializeOk <;> cases er <;>
    simp_all [Send]

/-- Send never changes the running flag. -/
lemma Send_state_running (U : Nat) (s : ClientState) (pn : PushNotification)
    (serializeOk : Bool) (env : WriteEnv) :
    (Send U s pn serializeOk env).state.running = s.running := by
  rcases hc : connectAndWrite s.apnsConnection env with ⟨cn, er, wr, op⟩
  cases hrun : s.running <;> cases hser : serializeOk <;> cases er <;>
    simp_all [Send]

/-- An accepted Send advances the counter modulo U no matter how
serialization and the writes turn out. -/
lemma Send_state_counter (U : Nat) (s : ClientState) (pn : PushNotification)
    (serializeOk : Bool) (env : WriteEnv) (h : s.running = true) :
    (Send U s pn serializeOk env).state.counter = (s.counter + 1) % U := by
  rcases hc : connectAndWrite s.apnsConnection env with ⟨cn, er, wr, op⟩
  cases hser : serializeOk <;> cases er <;> simp_all [Send]

/-- An accepted Send stamps the current counter into the notification no
matter how serialization and the writes turn out. -/
lemma Send_pnOut (U : Nat) (s : ClientState) (pn : PushNotification)
    (serializeOk : Bool) (env : WriteEnv) (h : s.running = true) :
    (Send U s pn serializeOk env).pnOut = { pn with Identifier := s.counter } := by
  rcases hc : connectAndWrite s.apnsConnection env with ⟨cn, er, wr, op⟩
  cases hser : serializeOk <;> cases er <;> simp_all [Send]

/-- handleErrResponse never changes the running flag. -/
lemma handleErrResponse_fst_running (s : ClientState) (r : errResponse) :
    (handleErrResponse s r).1.running = s.running := by
  unfold handleErrResponse
  split
  · rfl
  · split
    · rfl
    · split <;> rfl

/-- tryReset never changes the running flag. -/
lemma tryReset_running (s : ClientState) (c : Nat) :
    (tryReset s c).running = s.running := by
  unfold tryReset
  split
  · rfl
  · split <;> rfl

/-- saveErr never changes the state. -/
lemma saveErr_fst (s : ClientState) (r : errResponse) : (saveErr s r).1 = s := by
  unfold saveErr
  split <;> rfl

/-- After Close the client is never running. -/
lemma Close_state_running (s : ClientState) : (Close s).state.running = false := by
  unfold Close
  cases h : s.running with
  | false => simp [h]
  | true =>
    cases hc : s.apnsConnection <;> simp [h, hc]

/-- Close on a running client does close errChan. -/
lemma Close_closedChan_of_running (s : ClientState) (h : s.running = true) :
    (Close s).closedChan = true := by
  unfold Close
  cases hc : s.apnsConnection <;> simp [h, hc]

/-- Once the client is stopped every operation is a no-op that neither
closes errChan nor sends on it. -/
lemma step_not_running (U : Nat) (s : ClientState) (op : Op)
    (h : s.running = false) : step U s op = (s, false, false) := by
  cases op <;> simp [step, Send, Close, saveErr, handleErrResponse, tryReset, h]

/-- A stopped client stays in the same state along any run. -/
lemma runState_not_running (U : Nat) (s : ClientState) (ops : List Op)
    (h : s.running = false) : runState U s ops = s := by
  induction ops with
  | nil => rfl
  | cons op rest ih =>
    rw [runState, step_not_running U s op h]
    exact ih

/-- A stopped client closes errChan zero further times along any run. -/
lemma closeEvents_not_running (U : Nat) (s : ClientState) (ops : List Op)
    (h : s.running = false) : closeEvents U s ops = 0 := by
  induction ops with
  | nil => rfl
  | cons op rest ih =>
    rw [closeEvents, step_not_running U s op h]
    simpa using ih

/-- From a running client, errChan is closed exactly once when the run
contains a Close and never otherwise. -/
lemma closeEvents_running (U : Nat) (s : ClientState) (ops : List Op)
    (h : s.running = true) :
    closeEvents U s ops = if ops.any Op.isClose then 1 else 0 := by
  induction ops generalizing s with
  | nil => rfl
  | cons op rest ih =>
    cases op with
    | closeOp =>
      rw [closeEvents]
      simp only [step]
      rw [closeEvents_not_running U _ rest (Close_state_running s)]
      simp [Close_closedChan_of_running s h, Op.isClose]
    | sendOp pn sOk env =>
      rw [closeEvents]
      simp only [step]
      rw [ih _ (by rw [Send_state_running]; exact h)]
      simp [Op.isClose]
    | saveErrOp r =>
      rw [closeEvents]
      simp only [step]
      rw [saveErr_fst, ih _ h]
      simp [Op.isClose]
    | handleErrOp r =>
      rw [closeEvents]
      simp only [step]
      rw [ih _ (by rw [handleErrResponse_fst_running]; exact h)]
      simp [Op.isClose]
    | tryResetOp c =>
      rw [closeEvents]
      simp only [step]
      rw [ih _ (by rw [tryReset_running]; exact h)]
      simp [Op.isClose]

/-- The resend loop issues a Send for every drained notification in the
original order, whatever each individual resend's outcome is. -/
lemma resendLoop_map_fst (U : Nat) (outcome : Nat → Bool × WriteEnv)
    (s : ClientState) (l : List PushNotification) (i : Nat) :
    ((resendLoop U outcome s l i).2).map Prod.fst = l := by
  induction l generalizing s i with
  | nil => rfl
  | cons pn rest ih => simp [resendLoop, ih]

/-- Claim C1 (code bug): on a running client with a cached connection, when
the first socket write fails and the reconnect-and-retry write succeeds,
Send still returns the first write's non-nil error — line 210 of
src/client.go returns the outer err bound at line 190, shadowed by the
retry's err at line 206 — so the notification is not appended to the
Replay Queue, the cached connection is dropped, and a spurious SendErr
with absent report is emitted, contrary to the claim that the retried
delivery counts as success. -/
theorem send_write_retry_success_still_errors :
    Send 100 ⟨some 1, false, ⟨3, []⟩, 0, true⟩ ⟨0, 42⟩ true
        ⟨ConnResult.fail, true, false, ConnResult.ok 2, true, true⟩ =
      ⟨⟨none, false, ⟨3, []⟩, 1, true⟩, some GoErr.writeErr,
        [⟨⟨0, 42⟩, none⟩], 2, 1, ⟨0, 42⟩⟩ := by
  decide

/-- Claim C2: Send on a running client attempts at most two socket writes,
and whenever the first write happens — on a cached connection or on one the
call lazily opened — and it and the retry both fail, Send returns exactly
one non-nil error, emits exactly one SendErr with Res nil, and nils the
cached connection. -/
theorem send_write_attempts_and_double_failure
    (U : Nat) (s : ClientState) (pn : PushNotification) (serializeOk : Bool)
    (env : WriteEnv) (c c2 : Nat) (hrun : s.running = true) :
    (Send U s pn serializeOk env).writes ≤ 2 ∧
    (serializeOk = true →
      (s.apnsConnection = some c ∨
        (s.apnsConnection = none ∧ env.open1 = ConnResult.ok c)) →
      env.deadline1Ok = true → env.write1Ok = false →
      env.open2 = ConnResult.ok c2 → env.deadline2Ok = true →
      env.write2Ok = false →
      Send U s pn serializeOk env =
        ⟨{ s with counter := (s.counter + 1) % U, apnsConnection := none },
          some GoErr.writeErr, [⟨{ pn with Identifier := s.counter }, none⟩],
          2, if s.apnsConnection = none then 2 else 1,
          { pn with Identifier := s.counter }⟩) := by
  refine ⟨Send_writes_le U s pn serializeOk env, ?_⟩
  intro hser hentry hd1 hw1 ho2 hd2 hw2
  rcases hentry with hconn | ⟨hnone, hopen⟩
  · simp [Send, connectAndWrite, writeWithConn, hrun, hser, hconn, hd1, hw1,
      ho2, hd2, hw2]
  · simp [Send, connectAndWrite, writeWithConn, hrun, hser, hnone, hopen,
      hd1, hw1, ho2, hd2, hw2]

/-- Witness for claim C2 at a concrete double write failure on the
lazy-open path: no cached connection, the open succeeds, both writes
fail. -/
theorem send_write_attempts_and_double_failure_witness :
    (Send 100 ⟨none, false, ⟨3, []⟩, 0, true⟩ ⟨0, 42⟩ true
        ⟨ConnResult.ok 7, true, false, ConnResult.ok 2, true, false⟩).writes ≤ 2 ∧
    Send 100 ⟨none, false, ⟨3, []⟩, 0, true⟩ ⟨0, 42⟩ true
        ⟨ConnResult.ok 7, true, false, ConnResult.ok 2, true, false⟩ =
      ⟨⟨none, false, ⟨3, []⟩, 1, true⟩, some GoErr.writeErr,
        [⟨⟨0, 42⟩, none⟩], 2, 2, ⟨0, 42⟩⟩ :=
  ⟨(send_write_attempts_and_double_failure 100 _ _ _ _ 7 2 rfl).1,
    (send_write_attempts_and_double_failure 100 _ _ _ _ 7 2 rfl).2
      rfl (Or.inr ⟨rfl, rfl⟩) rfl rfl rfl rfl rfl⟩

/-- Claim C3: when a report with a real command matches an entry of the
Replay Queue, handleErrResponse emits exactly one SendErr pairing the
matched notification with the report, clears the whole queue, and hands the
drained tail to the resend task; the resend loop issues a Send for every
tail notification in the original order regardless of individual resend
failures. -/
theorem handleErrResponse_match_drains_and_resends
    (s : ClientState) (res : errResponse) (p : PushNotification)
    (tl : List PushNotification) (q1 : pnQueue)
    (hrun : s.running = true) (hcmd : res.Command ≠ 0)
    (htail : s.sentQ.Tail res.Identifier = (some p, tl, q1)) :
    handleErrResponse s res =
      ({ s with sentQ := q1.Clear }, [⟨p, some res⟩], tl) ∧
    ∀ (U : Nat) (outcome : Nat → Bool × WriteEnv) (s0 : ClientState) (i : Nat),
      ((resendLoop U outcome s0 tl i).2).map Prod.fst = tl := by
  constructor
  · unfold handleErrResponse
    rw [htail]
    simp [hrun, hcmd]
  · intro U outcome s0 i
    exact resendLoop_map_fst U outcome s0 tl i

/-- Witness for claim C3: a queue holding sequence numbers 0, 1, 2 hit by a
report for 1. -/
theorem handleErrResponse_match_drains_and_resends_witness :
    handleErrResponse
        ⟨none, false, ⟨3, [⟨0, 10⟩, ⟨1, 11⟩, ⟨2, 12⟩]⟩, 3, true⟩ ⟨8, 2, 1⟩ =
      (⟨none, false, ⟨3, []⟩, 3, true⟩,
        [⟨⟨1, 11⟩, some ⟨8, 2, 1⟩⟩], [⟨2, 12⟩]) ∧
    ((resendLoop 100
        (fun _ => (true, ⟨ConnResult.fail, false, false, ConnResult.fail, false, false⟩))
        ⟨none, false, ⟨3, []⟩, 3, true⟩ [⟨2, 12⟩] 0).2).map Prod.fst = [⟨2, 12⟩] := by
  have h := handleErrResponse_match_drains_and_resends
    ⟨none, false, ⟨3, [⟨0, 10⟩, ⟨1, 11⟩, ⟨2, 12⟩]⟩, 3, true⟩ ⟨8, 2, 1⟩
    ⟨1, 11⟩ [⟨2, 12⟩] ⟨3, []⟩ rfl (by decide) (by decide)
  exact ⟨h.1, h.2 100 _ _ 0⟩

/-- Claim C4: when a report's sequence number matches no Replay Queue
entry, handleErrResponse on a running client changes nothing: same state,
no SendErr emitted, no resend issued; and the Tail lookup itself leaves the
queue unchanged. -/
theorem handleErrResponse_miss_no_effect
    (s : ClientState) (res : errResponse)
    (hrun : s.running = true) (hcmd : res.Command ≠ 0)
    (hmiss : (s.sentQ.Tail res.Identifier).1 = none) :
    handleErrResponse s res = (s, [], []) ∧
    (s.sentQ.Tail res.Identifier).2.2 = s.sentQ := by
  have htail : s.sentQ.Tail res.Identifier = (none, [], s.sentQ) := by
    unfold pnQueue.Tail
    cases hs : splitAtId s.sentQ.items res.Identifier with
    | some v =>
      rcases v with ⟨p, tl⟩
      unfold pnQueue.Tail at hmiss
      rw [hs] at hmiss
      simp at hmiss
    | none => rfl
  refine ⟨?_, ?_⟩
  · unfold handleErrResponse
    rw [htail]
    simp [hrun, hcmd]
  · rw [htail]

/-- Witness for claim C4: a report for an already-evicted sequence number
0 against a queue holding 1 and 2. -/
theorem handleErrResponse_miss_no_effect_witness :
    handleErrResponse ⟨none, false, ⟨3, [⟨1, 11⟩, ⟨2, 12⟩]⟩, 3, true⟩ ⟨8, 2, 0⟩ =
      (⟨none, false, ⟨3, [⟨1, 11⟩, ⟨2, 12⟩]⟩, 3, true⟩, [], []) ∧
    ((⟨3, [⟨1, 11⟩, ⟨2, 12⟩]⟩ : pnQueue).Tail 0).2.2 = ⟨3, [⟨1, 11⟩, ⟨2, 12⟩]⟩ :=
  handleErrResponse_miss_no_effect _ _ rfl (by decide) (by decide)

/-- Claim C5 counterexample: on the valid-and-reported frame exit path the
reader does not close the connection, contradicting the claim that the
connection is closed on every exit path. -/
theorem startRead_valid_frame_leaves_conn_open :
    (startRead 8 (fun _ => true) (ReadOutcome.frame 8 0 true 5)).reported =
        some ⟨8, 0, 5⟩ ∧
    (startRead 8 (fun _ => true) (ReadOutcome.frame 8 0 true 5)).connClosed = false :=
  ⟨rfl, rfl⟩

/-- Claim C5 as amended: startRead handles at most the single frame of its
one read and terminates on every path, but it closes the connection (and
requests invalidation of the cached reference) only on the read-error exit
path; on the identifier-decode-failure, unknown-command, unknown-status and
valid-frame paths the connection is left open. -/
theorem startRead_single_shot_close_only_on_read_error
    (cmdSentinel : Nat) (known : Nat → Bool) (oc : ReadOutcome) :
    (startRead cmdSentinel known oc).connClosed = oc.isReadErr ∧
    (startRead cmdSentinel known oc).invalidated = oc.isReadErr := by
  cases oc with
  | readErr => exact ⟨rfl, rfl⟩
  | frame b0 b1 idOk id =>
    simp only [startRead, ReadOutcome.isReadErr]
    constructor <;> split_ifs <;> rfl

/-- Claim C6: on a running client tryReset clears the cached connection
exactly when it is the given instance; a different cached connection (or
none) is left untouched. -/
theorem tryReset_compare_and_clear (s : ClientState) (conn : Nat)
    (hrun : s.running = true) :
    (s.apnsConnection = some conn →
      tryReset s conn = { s with apnsConnection := none }) ∧
    (s.apnsConnection ≠ some conn → tryReset s conn = s) := by
  constructor <;> intro h <;> simp [tryReset, hrun, h]

/-- Witness for claim C6: the matching and the non-matching connection. -/
theorem tryReset_compare_and_clear_witness :
    tryReset ⟨some 1, false, ⟨2, []⟩, 0, true⟩ 1 = ⟨none, false, ⟨2, []⟩, 0, true⟩ ∧
    tryReset ⟨some 1, false, ⟨2, []⟩, 0, true⟩ 5 = ⟨some 1, false, ⟨2, []⟩, 0, true⟩ :=
  ⟨(tryReset_compare_and_clear ⟨some 1, false, ⟨2, []⟩, 0, true⟩ 1 rfl).1 rfl,
    (tryReset_compare_and_clear ⟨some 1, false, ⟨2, []⟩, 0, true⟩ 5 rfl).2 (by decide)⟩

/-- Claim C7: after Close, every subsequent Send — also after any further
interleaved operations — returns the not-running error immediately, with
the state untouched, no connection opened, no socket write, no SendErr, and
the caller's notification (its Identifier included) unchanged. -/
theorem send_after_close_not_running (U : Nat) (s : ClientState)
    (ops : List Op) (pn : PushNotification) (serializeOk : Bool)
    (env : WriteEnv) :
    Send U (runState U (Close s).state ops) pn serializeOk env =
      ⟨(Close s).state, some GoErr.notRunning, [], 0, 0, pn⟩ := by
  rw [runState_not_running U _ ops (Close_state_running s)]
  simp [Send, Close_state_running s]

/-- Claim C8: along any run from a fresh client, errChan is closed exactly
once when the run contains a Close and never otherwise; and on a stopped
client saveErr sends nothing on errChan, handleErrResponse does nothing,
and a second Close returns without closing anything. -/
theorem close_idempotent_chan_closed_once (U : Nat) :
    (∀ ops : List Op,
      closeEvents U createState ops = if ops.any Op.isClose then 1 else 0) ∧
    (∀ (s : ClientState) (r : errResponse), s.running = false →
      saveErr s r = (s, none) ∧ handleErrResponse s r = (s, [], []) ∧
      Close s = ⟨s, false, none⟩) := by
  constructor
  · intro ops
    exact closeEvents_running U createState ops rfl
  · intro s r h
    exact ⟨by simp [saveErr, h], by simp [handleErrResponse, h],
      by simp [Close, h]⟩

/-- Witness for claim C8: a run with two Close calls and a late report
closes errChan once; a stopped client drops a late report. -/
theorem close_idempotent_chan_closed_once_witness :
    closeEvents 5 createState [Op.closeOp, Op.closeOp, Op.saveErrOp ⟨8, 0, 0⟩] = 1 ∧
    saveErr ⟨none, true, ⟨2, []⟩, 0, false⟩ ⟨8, 0, 0⟩ =
      (⟨none, true, ⟨2, []⟩, 0, false⟩, none) := by
  refine ⟨?_, ((close_idempotent_chan_closed_once 5).2 _ ⟨8, 0, 0⟩ rfl).1⟩
  rw [(close_idempotent_chan_closed_once 5).1
    [Op.closeOp, Op.closeOp, Op.saveErrOp ⟨8, 0, 0⟩]]
  decide

/-- Claim C9: an accepted Send stamps the current counter value into the
notification's Identifier and advances the counter by one modulo
IdentifierUbound, wrapping to 0 instead of reaching the bound, and does so
regardless of how serialization and the writes turn out. -/
theorem send_counter_advance_mod_ubound
    (U : Nat) (s : ClientState) (pn : PushNotification) (serializeOk : Bool)
    (env : WriteEnv) (hrun : s.running = true) (hlt : s.counter < U) :
    (Send U s pn serializeOk env).state.counter = (s.counter + 1) % U ∧
    (Send U s pn serializeOk env).pnOut.Identifier = s.counter ∧
    (Send U s pn serializeOk env).state.counter < U ∧
    (s.counter + 1 = U → (Send U s pn serializeOk env).state.counter = 0) := by
  have hc := Send_state_counter U s pn serializeOk env hrun
  have hp := Send_pnOut U s pn serializeOk env hrun
  refine ⟨hc, by rw [hp], ?_, ?_⟩
  · rw [hc]
    exact Nat.mod_lt _ (Nat.lt_of_le_of_lt (Nat.zero_le _) hlt)
  · intro hU
    rw [hc, hU, Nat.mod_self]

/-- Witness for claim C9: counter 2 with bound 3 wraps to 0 even though the
send's serialization fails. -/
theorem send_counter_advance_mod_ubound_witness :
    (Send 3 ⟨none, false, ⟨2, []⟩, 2, true⟩ ⟨0, 7⟩ false
        ⟨ConnResult.fail, true, true, ConnResult.fail, true, true⟩).state.counter = 0 ∧
    (Send 3 ⟨none, false, ⟨2, []⟩, 2, true⟩ ⟨0, 7⟩ false
        ⟨ConnResult.fail, true, true, ConnResult.fail, true, true⟩).pnOut.Identifier = 2 :=
  ⟨(send_counter_advance_mod_ubound 3 ⟨none, false, ⟨2, []⟩, 2, true⟩ ⟨0, 7⟩
      false ⟨ConnResult.fail, true, true, ConnResult.fail, true, true⟩
      rfl (by decide)).2.2.2 rfl,
    (send_counter_advance_mod_ubound 3 ⟨none, false, ⟨2, []⟩, 2, true⟩ ⟨0, 7⟩
      false ⟨ConnResult.fail, true, true, ConnResult.fail, true, true⟩
      rfl (by decide)).2.1⟩

/-- Claim C10: when serialization fails, an accepted Send returns the
serialization error with no socket write, no openConnection attempt, no
SendErr emitted, and the connection and queue untouched — while the counter
has still been advanced and the notification's Identifier overwritten. -/
theorem send_serialize_failure_effects
    (U : Nat) (s : ClientState) (pn : PushNotification) (env : WriteEnv)
    (hrun : s.running = true) :
    Send U s pn false env =
      ⟨{ s with counter := (s.counter + 1) % U }, some GoErr.serializeErr,
        [], 0, 0, { pn with Identifier := s.counter }⟩ := by
  simp [Send, hrun]

/-- Witness for claim C10 at a concrete state. -/
theorem send_serialize_failure_effects_witness :
    Send 10 ⟨some 4, false, ⟨2, [⟨0, 1⟩]⟩, 5, true⟩ ⟨9, 7⟩ false
        ⟨ConnResult.fail, true, true, ConnResult.fail, true, true⟩ =
      ⟨⟨some 4, false, ⟨2, [⟨0, 1⟩]⟩, 6, true⟩, some GoErr.serializeErr,
        [], 0, 0, ⟨5, 7⟩⟩ :=
  send_serialize_failure_effects 10 ⟨some 4, false, ⟨2, [⟨0, 1⟩]⟩, 5, true⟩
    ⟨9, 7⟩ ⟨ConnResult.fail, true, true, ConnResult.fail, true, true⟩ rfl

end Apns
